import Mathlib

/-!
Shallow embedding of the declaration generator (generateTypes / writeDTSFile)
of the workers-sdk type-generation module.

External collaborators are modelled as parameters:
  - the entry-point format resolution (getEntry) yields a CfScriptFormat value;
  - the generation timestamp (new Date() interpolated into the header) is a
    String parameter "now";
  - the file system visible to the writer is the chain of directories that
    findUpSync("worker-configuration.d.ts") walks: the current working
    directory plus its ancestors, each holding at most one candidate file.
    Reading a file can fail, which models readFileSync throwing; the thrown
    error is carried as its message string.
-/

/-- JavaScript runtime value of a plain vars entry, as discriminated by the
typeof checks in the source. A non-null object is carried together with its
JSON.stringify serialization; functions, symbols and bigints are collapsed
into vother since the source treats them all alike (no branch matches). -/
inductive VarValue where
  | vstr (s : String)
  | vnum (n : Int)
  | vbool (b : Bool)
  | vnull
  | vundefined
  | vobj (json : String)
  | vother
deriving DecidableEq

/-- Template-literal interpolation of a primitive value, as in the source's
backtick string for vars (numbers and booleans print the JavaScript way). -/
def VarValue.interp : VarValue → String
  | .vstr s => s
  | .vnum n => toString n
  | .vbool b => if b then "true" else "false"
  | _ => ""

/-- Mirrors the source's first vars condition: typeof varValue is one of
string, number, boolean. -/
def VarValue.isPrimitive : VarValue → Bool
  | .vstr _ | .vnum _ | .vbool _ => true
  | _ => false

/-- Mirrors the source's second vars condition: typeof varValue is object and
varValue is not null. -/
def VarValue.isObj : VarValue → Bool
  | .vobj _ => true
  | _ => false

/-- Lines pushed for one vars entry: the two independent if statements of the
source, in order (for a single value at most one of them fires). -/
def varMember (varName : String) (varValue : VarValue) : List String :=
  (if varValue.isPrimitive then [varName ++ ": \"" ++ varValue.interp ++ "\";"] else [])
    ++ (match varValue with
        | .vobj json => [varName ++ ": " ++ json ++ ";"]
        | _ => [])

structure KVNamespaceCfg where
  binding : String
deriving DecidableEq

structure DurableObjectBindingCfg where
  name : String
deriving DecidableEq

structure DurableObjectsCfg where
  bindings : List DurableObjectBindingCfg
deriving DecidableEq

/-- One entry of any of the collections whose members carry a binding
identifier (r2_buckets, d1_databases, services, constellation,
analytics_engine_datasets, dispatch_namespaces, queue producers). -/
structure BindingCfg where
  binding : String
deriving DecidableEq

structure LogfwdrBindingCfg where
  name : String
deriving DecidableEq

structure LogfwdrCfg where
  bindings : Option (List LogfwdrBindingCfg)
deriving DecidableEq

structure UncheckedBindingCfg where
  name : String
deriving DecidableEq

/-- Source field name is a Lean keyword (the unchecked-bindings section of the
configuration), so the structure and the field are renamed to unchecked. -/
structure UncheckedCfg where
  bindings : Option (List UncheckedBindingCfg)
deriving DecidableEq

structure QueuesCfg where
  producers : Option (List BindingCfg)
deriving DecidableEq

structure RuleCfg where
  type : String
  globs : List String
deriving DecidableEq

/-- Partial configuration handed to generateTypes. Absent fields are none;
data_blobs and text_blobs are record objects iterated with for..in, so they
are carried as their key lists; vars is iterated with for..in as well, so it
is carried as an association list in insertion order. -/
structure ConfigToDTS where
  kv_namespaces : Option (List KVNamespaceCfg) := none
  vars : Option (List (String × VarValue)) := none
  durable_objects : Option DurableObjectsCfg := none
  r2_buckets : Option (List BindingCfg) := none
  d1_databases : Option (List BindingCfg) := none
  services : Option (List BindingCfg) := none
  constellation : Option (List BindingCfg) := none
  analytics_engine_datasets : Option (List BindingCfg) := none
  dispatch_namespaces : Option (List BindingCfg) := none
  logfwdr : Option LogfwdrCfg := none
  data_blobs : Option (List String) := none
  text_blobs : Option (List String) := none
  unchecked : Option UncheckedCfg := none
  queues : Option QueuesCfg := none
  rules : Option (List RuleCfg) := none
deriving DecidableEq

/-- Environment member lines, pushed kind by kind in the source's fixed
textual order. An if on an optional collection runs its loop exactly when the
field is present (an empty array is truthy in JavaScript but contributes no
iterations, so present-and-empty and absent coincide); the logfwdr guard also
checks length, so it pushes its single line only for a non-empty list. -/
def envTypeStructure (configToDTS : ConfigToDTS) : List String :=
  (configToDTS.kv_namespaces.getD []).map
      (fun kvNamespace => kvNamespace.binding ++ ": KVNamespace;")
  ++ (configToDTS.vars.getD []).flatMap (fun p => varMember p.1 p.2)
  ++ ((configToDTS.durable_objects.map DurableObjectsCfg.bindings).getD []).map
      (fun durableObject => durableObject.name ++ ": DurableObjectNamespace;")
  ++ (configToDTS.r2_buckets.getD []).map (fun b => b.binding ++ ": R2Bucket;")
  ++ (configToDTS.d1_databases.getD []).map (fun d1 => d1.binding ++ ": D1Database;")
  ++ (configToDTS.services.getD []).map (fun service => service.binding ++ ": Fetcher;")
  ++ (configToDTS.constellation.getD []).map (fun service => service.binding ++ ": Fetcher;")
  ++ (configToDTS.analytics_engine_datasets.getD []).map
      (fun analyticsEngine => analyticsEngine.binding ++ ": AnalyticsEngineDataset;")
  ++ (configToDTS.dispatch_namespaces.getD []).map
      (fun namespace_ => namespace_.binding ++ ": DispatchNamespace;")
  ++ (if ((configToDTS.logfwdr.bind LogfwdrCfg.bindings).getD []).length != 0
        then ["LOGFWDR_SCHEMA: any;"] else [])
  ++ (configToDTS.data_blobs.getD []).map (fun dataBlobs => dataBlobs ++ ": ArrayBuffer;")
  ++ (configToDTS.text_blobs.getD []).map (fun textBlobs => textBlobs ++ ": string;")
  ++ ((configToDTS.unchecked.bind UncheckedCfg.bindings).getD []).map
      (fun ub => ub.name ++ ": any;")
  ++ ((configToDTS.queues.bind QueuesCfg.producers).getD []).map
      (fun queue => queue.binding ++ ": Queue;")

/-- The static moduleTypeMap object literal of the source. -/
def moduleTypeMap (t : String) : Option String :=
  if t == "Text" then some "string"
  else if t == "Data" then some "ArrayBuffer"
  else if t == "CompiledWasm" then some "WebAssembly.Module"
  else none

/-- JavaScript String.prototype.split at a one-character separator, over the
character list; the result is never empty (splitting the empty string gives
one empty group, as in JavaScript). -/
def splitOnChar (c : Char) : List Char → List (List Char)
  | [] => [[]]
  | ch :: rest =>
    match splitOnChar c rest with
    | [] => [[]]
    | g :: gs => if ch == c then [] :: g :: gs else (ch :: g) :: gs

/-- glob.split(".").at(-1): the last dot-separated segment of the glob (split
never yields an empty list, so at(-1) is its last element). -/
def lastSegmentAfterDot (glob : String) : String :=
  ((splitOnChar '.' glob.toList).getLastD []).asString

/-- Declarations contributed by one import rule: when the rule's type is in
the map, one ambient module declaration per glob, the extension being the
last dot-separated segment of the glob; otherwise nothing. -/
def ruleDecls (ruleObject : RuleCfg) : List String :=
  match moduleTypeMap ruleObject.type with
  | some typeScriptType =>
    ruleObject.globs.map (fun glob =>
      "declare module \"*." ++ lastSegmentAfterDot glob ++ "\" \x7b\n\tconst value: "
        ++ typeScriptType ++ ";\n\texport default value;\n\x7d")
  | none => []

/-- Ambient module declaration lines, from the rules section. -/
def modulesTypeStructure (configToDTS : ConfigToDTS) : List String :=
  (configToDTS.rules.getD []).flatMap ruleDecls

/-- Entry-point format classification (CfScriptFormat of the source). -/
inductive CfScriptFormat where
  | modules
  | serviceWorker
deriving DecidableEq

/-- State of the worker-configuration.d.ts candidate in one directory: either
its content reads fine, or reading it throws a file-system error carried as
its message. -/
inductive FileEntry where
  | ok (content : String)
  | err (msg : String)
deriving DecidableEq

/-- File-system slice the writer can see: the candidate file of the current
working directory (where writeFileSync targets its relative path) and the
candidates of the ancestor directories, nearest first. -/
structure FS where
  cwd : Option FileEntry := none
  ancestors : List (Option FileEntry) := []
deriving DecidableEq

/-- findUpSync("worker-configuration.d.ts"): the nearest existing candidate,
starting at the current directory and walking up. -/
def findUpSync (fs : FS) : Option FileEntry :=
  match fs.cwd with
  | some e => some e
  | none => fs.ancestors.findSome? id

/-- Substring occurrence over character lists, by scanning every suffix. -/
def containsSub (hay needle : List Char) : Bool :=
  needle.isPrefixOf hay ||
    (match hay with
      | [] => false
      | _ :: t => containsSub t needle)

/-- JavaScript String.prototype.includes, a substring test. -/
def strIncludes (s sub : String) : Bool :=
  containsSub s.toList sub.toList

/-- The try/catch around the foreign-file check: inside the try, a found file
whose content lacks the generated marker raises the UserError; a failing read
raises its file-system error. The catch re-raises any error whose message
does not contain "not found" and absorbs the rest. Returns the re-raised
message, or none when the writer may proceed. -/
def ownershipCheck (fs : FS) : Option String :=
  let thrown : Option String :=
    match findUpSync fs with
    | none => none
    | some (.ok content) =>
      if strIncludes content "Generated by Wrangler" then none
      else some "A non-wrangler worker-configuration.d.ts already exists, please rename and try again."
    | some (.err m) => some m
  match thrown with
  | none => none
  | some m => if strIncludes m "not found" then none else some m

/-- Assembly of combinedTypeStrings from the two emitted lists, selected by
the format. -/
def combinedTypeStrings (formatType : CfScriptFormat)
    (envTypeStructure modulesTypeStructure : List String) : String :=
  match formatType with
  | .modules =>
    "interface Env \x7b\n"
      ++ String.intercalate "\n" (envTypeStructure.map (fun value => "\t" ++ value))
      ++ "\n\x7d\n" ++ String.intercalate "\n" modulesTypeStructure
  | .serviceWorker =>
    "export \x7b\x7d;\ndeclare global \x7b\n"
      ++ String.intercalate "\n" (envTypeStructure.map (fun value => "\tconst " ++ value))
      ++ "\n\x7d\n" ++ String.intercalate "\n" modulesTypeStructure

/-- writeDTSFile: run the ownership check (and propagate what it re-raises),
then, when either emitted list is non-empty, overwrite the candidate of the
current working directory with the dated header plus the assembled body and
hand the body to the logger (the Option String of the result); when both
lists are empty, leave the file system untouched and log nothing. -/
def writeDTSFile (envTypeStructure modulesTypeStructure : List String)
    (formatType : CfScriptFormat) (now : String) (fs : FS) :
    Except String (FS × Option String) :=
  match ownershipCheck fs with
  | some m => Except.error m
  | none =>
    if envTypeStructure.length != 0 || modulesTypeStructure.length != 0 then
      Except.ok
        ({ fs with cwd := some (FileEntry.ok
            ("// Generated by Wrangler on " ++ now ++ "\n"
              ++ combinedTypeStrings formatType envTypeStructure modulesTypeStructure)) },
         some (combinedTypeStrings formatType envTypeStructure modulesTypeStructure))
    else Except.ok (fs, none)

/-- generateTypes: build the two lists from the configuration and hand them
to the writer. The entrypoint format, computed by the external getEntry
collaborator (defaulting to modules when the configuration has no entry
point), comes in as a parameter. -/
def generateTypes (configToDTS : ConfigToDTS) (entrypointFormat : CfScriptFormat)
    (now : String) (fs : FS) : Except String (FS × Option String) :=
  writeDTSFile (envTypeStructure configToDTS) (modulesTypeStructure configToDTS)
    entrypointFormat now fs

/-- C1: the claim says a numeric variable PORT = 8080 yields the member line
PORT: 8080; with an unquoted numeric literal. The mapper instead interpolates
every primitive inside double quotes, so the emitted member is PORT: "8080";
which refutes the claim at this concrete input (the string half of the claim,
FOO: "bar";, does hold). -/
theorem C1_counterexample :
    envTypeStructure { vars := some [("PORT", VarValue.vnum 8080)] } = ["PORT: \"8080\";"]
      ∧ envTypeStructure { vars := some [("PORT", VarValue.vnum 8080)] } ≠ ["PORT: 8080;"] := by
  constructor
  · decide
  · decide

/-- C1 (amended): every plain variable with a primitive value (string, number
or boolean) is emitted as a member whose type is the value's interpolation
wrapped in double quotes: FOO = "bar" yields FOO: "bar"; and PORT = 8080
yields PORT: "8080"; (a quoted string literal type, even for numbers and
booleans). -/
theorem C1_amended_primitive_vars_quoted (varName : String) (v : VarValue)
    (h : v.isPrimitive = true) :
    envTypeStructure { vars := some [(varName, v)] }
      = [varName ++ ": \"" ++ v.interp ++ "\";"] := by
  cases v <;> simp_all [envTypeStructure, varMember, VarValue.isPrimitive, VarValue.interp]

/-- Witness for the amended C1 at the numeric example of the claim. -/
theorem C1_amended_witness :
    (VarValue.vnum 8080).isPrimitive = true
      ∧ envTypeStructure { vars := some [("PORT", VarValue.vnum 8080)] } = ["PORT: \"8080\";"] :=
  ⟨by decide, by
    have h := C1_amended_primitive_vars_quoted "PORT" (VarValue.vnum 8080) (by decide)
    simpa using h⟩

/-- C9: a plain variable whose value is null, undefined, or of any other
non-primitive non-object type (function, symbol, bigint) contributes no
environment member: removing it from the vars list leaves the emitted
structure unchanged, whatever else the configuration holds, and generation
still succeeds (the mapper is total). -/
theorem C9_skipped_var (varName : String) (v : VarValue) (c : ConfigToDTS)
    (pre post : List (String × VarValue))
    (h : v = VarValue.vnull ∨ v = VarValue.vundefined ∨ v = VarValue.vother) :
    envTypeStructure { c with vars := some (pre ++ (varName, v) :: post) }
      = envTypeStructure { c with vars := some (pre ++ post) } := by
  have hv : varMember varName v = [] := by
    rcases h with h | h | h <;> subst h <;> rfl
  simp [envTypeStructure, hv]

/-- Witness for C9: a null variable between two live ones is skipped. -/
theorem C9_witness :
    (VarValue.vnull = VarValue.vnull ∨ VarValue.vnull = VarValue.vundefined
        ∨ VarValue.vnull = VarValue.vother)
      ∧ envTypeStructure
          { vars := some [("A", VarValue.vstr "x"), ("N", VarValue.vnull), ("B", VarValue.vnum 1)] }
        = envTypeStructure { vars := some [("A", VarValue.vstr "x"), ("B", VarValue.vnum 1)] } :=
  ⟨Or.inl rfl,
    C9_skipped_var "N" VarValue.vnull {} [("A", VarValue.vstr "x")] [("B", VarValue.vnum 1)]
      (Or.inl rfl)⟩

theorem varMember_length (varName : String) (v : VarValue) :
    (varMember varName v).length = if v.isPrimitive || v.isObj then 1 else 0 := by
  cases v <;> rfl

theorem varsEmitted_length (vs : List (String × VarValue)) :
    (vs.flatMap (fun p => varMember p.1 p.2)).length
      = (vs.filter (fun p => p.2.isPrimitive || p.2.isObj)).length := by
  induction vs with
  | nil => rfl
  | cons p t ih =>
    simp only [List.flatMap_cons, List.length_append, ih, List.filter_cons, varMember_length]
    by_cases h : (p.2.isPrimitive || p.2.isObj) = true
    · simp [h]; omega
    · simp [h]

/-- C4 (corrected for log-forwarding, otherwise as claimed): the mapper emits
one member per entry for every per-entry kind, so the total member count is
the sum of the collection sizes plus one emitted variable per primitive or
object value, except that a non-empty log-forwarding binding list contributes
exactly one member (LOGFWDR_SCHEMA: any;) regardless of how many bindings it
holds; the fixed kind-to-type table holds as claimed for key-value
namespaces, buckets, databases, services, durable objects, queue producers
and for the unconstrained-typed kind. -/
theorem C4_amended_member_counts (c : ConfigToDTS) :
    ((envTypeStructure c).length =
      (c.kv_namespaces.getD []).length
      + ((c.vars.getD []).filter (fun p => p.2.isPrimitive || p.2.isObj)).length
      + ((c.durable_objects.map DurableObjectsCfg.bindings).getD []).length
      + (c.r2_buckets.getD []).length
      + (c.d1_databases.getD []).length
      + (c.services.getD []).length
      + (c.constellation.getD []).length
      + (c.analytics_engine_datasets.getD []).length
      + (c.dispatch_namespaces.getD []).length
      + (if ((c.logfwdr.bind LogfwdrCfg.bindings).getD []).length != 0 then 1 else 0)
      + (c.data_blobs.getD []).length
      + (c.text_blobs.getD []).length
      + ((c.unchecked.bind UncheckedCfg.bindings).getD []).length
      + ((c.queues.bind QueuesCfg.producers).getD []).length)
    ∧ (∀ l : List KVNamespaceCfg, envTypeStructure { kv_namespaces := some l }
        = l.map (fun kv => kv.binding ++ ": KVNamespace;"))
    ∧ (∀ l : List BindingCfg, envTypeStructure { r2_buckets := some l }
        = l.map (fun b => b.binding ++ ": R2Bucket;"))
    ∧ (∀ l : List BindingCfg, envTypeStructure { d1_databases := some l }
        = l.map (fun d => d.binding ++ ": D1Database;"))
    ∧ (∀ l : List BindingCfg, envTypeStructure { services := some l }
        = l.map (fun s => s.binding ++ ": Fetcher;"))
    ∧ (∀ l : List DurableObjectBindingCfg,
        envTypeStructure { durable_objects := some { bindings := l } }
          = l.map (fun d => d.name ++ ": DurableObjectNamespace;"))
    ∧ (∀ l : List BindingCfg, envTypeStructure { queues := some { producers := some l } }
        = l.map (fun q => q.binding ++ ": Queue;"))
    ∧ (∀ l : List UncheckedBindingCfg,
        envTypeStructure { unchecked := some { bindings := some l } }
          = l.map (fun u => u.name ++ ": any;")) := by
  refine ⟨?_, ?_, ?_, ?_, ?_, ?_, ?_, ?_⟩
  · simp only [envTypeStructure, List.length_append, List.length_map, varsEmitted_length,
      apply_ite List.length, List.length_cons, List.length_nil, Nat.zero_add]
  · intro l; simp [envTypeStructure]
  · intro l; simp [envTypeStructure]
  · intro l; simp [envTypeStructure]
  · intro l; simp [envTypeStructure]
  · intro l; simp [envTypeStructure]
  · intro l; simp [envTypeStructure]
  · intro l; simp [envTypeStructure]

/-- C4 counterexample: a log-forwarding section with two bindings yields a
single LOGFWDR_SCHEMA member, so the number of emitted members for that kind
(1) differs from the number of entries of that kind (2), refuting the
per-entry count part of the claim. -/
theorem C4_counterexample :
    envTypeStructure { logfwdr := some { bindings := some [{ name := "A" }, { name := "B" }] } }
        = ["LOGFWDR_SCHEMA: any;"]
      ∧ (envTypeStructure
          { logfwdr := some { bindings := some [{ name := "A" }, { name := "B" }] } }).length ≠ 2 := by
  constructor
  · decide
  · decide

/-- C7: an import rule whose type is one of the three recognized kinds (Text
to string, Data to ArrayBuffer, CompiledWasm to WebAssembly.Module) yields
exactly one ambient module declaration per glob, of the fixed shape binding
the glob's last dot-segment extension to a default export of the mapped
type; a rule with an unrecognized type contributes no declarations (and the
mapper raises no error, being total). -/
theorem C7_module_rules (ruleObject : RuleCfg) (typeScriptType : String) :
    (moduleTypeMap ruleObject.type = some typeScriptType →
        ruleDecls ruleObject = ruleObject.globs.map (fun glob =>
          "declare module \"*." ++ lastSegmentAfterDot glob ++ "\" \x7b\n\tconst value: "
            ++ typeScriptType ++ ";\n\texport default value;\n\x7d"))
      ∧ (moduleTypeMap ruleObject.type = none → ruleDecls ruleObject = [])
      ∧ moduleTypeMap "Text" = some "string"
      ∧ moduleTypeMap "Data" = some "ArrayBuffer"
      ∧ moduleTypeMap "CompiledWasm" = some "WebAssembly.Module" := by
  refine ⟨?_, ?_, by decide, by decide, by decide⟩
  · intro h; simp [ruleDecls, h]
  · intro h; simp [ruleDecls, h]

/-- Witness for C7 at the claim's example: a Text rule with glob *.txt yields
the *.txt/string ambient declaration. -/
theorem C7_witness :
    moduleTypeMap "Text" = some "string"
      ∧ modulesTypeStructure { rules := some [{ type := "Text", globs := ["*.txt"] }] }
        = ["declare module \"*.txt\" \x7b\n\tconst value: string;\n\texport default value;\n\x7d"] := by
  refine ⟨by decide, ?_⟩
  have h := (C7_module_rules { type := "Text", globs := ["*.txt"] } "string").1 (by decide)
  simp only [modulesTypeStructure, Option.getD_some, List.flatMap_cons, List.flatMap_nil,
    List.append_nil, h, List.map_cons, List.map_nil]
  decide

/-- C5: with a non-empty member set, the format selects only the wrapping:
the modules format produces the interface Env block followed by the module
declarations, and the legacy format produces the empty-export marker and a
declare global block whose lines are the very same member strings prefixed
with const, followed by the same module declarations. -/
theorem C5_format_shape (env mods : List String) (hne : env ≠ []) :
    combinedTypeStrings CfScriptFormat.modules env mods
        = "interface Env \x7b\n"
          ++ String.intercalate "\n" (env.map (fun value => "\t" ++ value))
          ++ "\n\x7d\n" ++ String.intercalate "\n" mods
      ∧ combinedTypeStrings CfScriptFormat.serviceWorker env mods
        = "export \x7b\x7d;\ndeclare global \x7b\n"
          ++ String.intercalate "\n" (env.map (fun value => "\tconst " ++ value))
          ++ "\n\x7d\n" ++ String.intercalate "\n" mods :=
  ⟨rfl, rfl⟩

/-- Witness for C5 on a one-member binding set. -/
theorem C5_witness :
    (["A: KVNamespace;"] : List String) ≠ []
      ∧ combinedTypeStrings CfScriptFormat.modules ["A: KVNamespace;"] []
          = "interface Env \x7b\n\tA: KVNamespace;\n\x7d\n"
      ∧ combinedTypeStrings CfScriptFormat.serviceWorker ["A: KVNamespace;"] []
          = "export \x7b\x7d;\ndeclare global \x7b\n\tconst A: KVNamespace;\n\x7d\n" := by
  have h := C5_format_shape ["A: KVNamespace;"] [] (by decide)
  exact ⟨by decide, by rw [h.1]; decide, by rw [h.2]; decide⟩

instance {ε α : Type} [DecidableEq ε] [DecidableEq α] : DecidableEq (Except ε α) := fun x y =>
  match x, y with
  | .error a, .error b =>
    if h : a = b then isTrue (by rw [h]) else isFalse (fun hh => h (Except.error.inj hh))
  | .error _, .ok _ => isFalse (fun hh => Except.noConfusion hh)
  | .ok _, .error _ => isFalse (fun hh => Except.noConfusion hh)
  | .ok a, .ok b =>
    if h : a = b then isTrue (by rw [h]) else isFalse (fun hh => h (Except.ok.inj hh))

/-- C2: whatever the configuration (in particular an empty one whose emitted
lists are both empty) and format, when the upward search finds a file whose
content reads fine but lacks the generated marker, generation stops with the
user-facing foreign-file error and performs no write: the ownership check
runs before and independently of the emptiness check. -/
theorem C2_foreign_file_aborts (configToDTS : ConfigToDTS) (fmt : CfScriptFormat)
    (now : String) (fs : FS) (content : String)
    (h1 : findUpSync fs = some (FileEntry.ok content))
    (h2 : strIncludes content "Generated by Wrangler" = false) :
    generateTypes configToDTS fmt now fs
      = Except.error "A non-wrangler worker-configuration.d.ts already exists, please rename and try again." := by
  have hoc : ownershipCheck fs
      = some "A non-wrangler worker-configuration.d.ts already exists, please rename and try again." := by
    simp only [ownershipCheck, h1, h2, Bool.false_eq_true, if_false]
    simp [show strIncludes
        "A non-wrangler worker-configuration.d.ts already exists, please rename and try again."
        "not found" = false from by decide]
  unfold generateTypes writeDTSFile
  rw [hoc]

/-- Witness for C2: a foreign file in the current directory aborts generation
for the empty configuration. -/
theorem C2_witness :
    findUpSync { cwd := some (FileEntry.ok "hello"), ancestors := [] } = some (FileEntry.ok "hello")
      ∧ strIncludes "hello" "Generated by Wrangler" = false
      ∧ generateTypes {} CfScriptFormat.modules "now" { cwd := some (FileEntry.ok "hello"), ancestors := [] }
          = Except.error "A non-wrangler worker-configuration.d.ts already exists, please rename and try again." :=
  ⟨rfl, by decide,
    C2_foreign_file_aborts {} CfScriptFormat.modules "now"
      { cwd := some (FileEntry.ok "hello"), ancestors := [] } "hello" rfl (by decide)⟩

/-- C3: the claim says two generation runs over a fixed configuration and
format produce byte-identical output with no run-varying data. The written
file begins with a header interpolating the current date, so two runs at
different instants write different bytes: this concrete configuration gives
two distinct results for two timestamps. -/
theorem C3_counterexample :
    generateTypes { kv_namespaces := some [{ binding := "K" }] } CfScriptFormat.modules
        "Mon Jan 01 2024" {}
      ≠ generateTypes { kv_namespaces := some [{ binding := "K" }] } CfScriptFormat.modules
        "Tue Jan 02 2024" {} := by decide

/-- C3 (amended): for a fixed configuration and format the generated body is
run-independent: two runs from the same file-system state write the same
body and log the same string, the written files differing only in the
timestamp interpolated into the header line (so runs with equal timestamps
are byte-identical). -/
theorem C3_amended_deterministic_body (configToDTS : ConfigToDTS) (fmt : CfScriptFormat)
    (t1 t2 : String) (fs : FS)
    (hown : ownershipCheck fs = none)
    (hne : ((envTypeStructure configToDTS).length != 0
        || (modulesTypeStructure configToDTS).length != 0) = true) :
    generateTypes configToDTS fmt t1 fs
        = Except.ok
            ({ fs with cwd := some (FileEntry.ok ("// Generated by Wrangler on " ++ t1 ++ "\n"
                ++ combinedTypeStrings fmt (envTypeStructure configToDTS) (modulesTypeStructure configToDTS))) },
             some (combinedTypeStrings fmt (envTypeStructure configToDTS) (modulesTypeStructure configToDTS)))
      ∧ generateTypes configToDTS fmt t2 fs
        = Except.ok
            ({ fs with cwd := some (FileEntry.ok ("// Generated by Wrangler on " ++ t2 ++ "\n"
                ++ combinedTypeStrings fmt (envTypeStructure configToDTS) (modulesTypeStructure configToDTS))) },
             some (combinedTypeStrings fmt (envTypeStructure configToDTS) (modulesTypeStructure configToDTS))) := by
  refine ⟨?_, ?_⟩ <;> (unfold generateTypes writeDTSFile; rw [hown]; simp [hne])

/-- Witness for the amended C3 on a one-binding configuration and two
distinct timestamps. -/
theorem C3_amended_witness :
    ownershipCheck {} = none
      ∧ ((envTypeStructure { kv_namespaces := some [{ binding := "K" }] }).length != 0
          || (modulesTypeStructure { kv_namespaces := some [{ binding := "K" }] }).length != 0) = true
      ∧ generateTypes { kv_namespaces := some [{ binding := "K" }] } CfScriptFormat.modules "A" {}
          = Except.ok
              ({ cwd := some (FileEntry.ok
                    "// Generated by Wrangler on A\ninterface Env \x7b\n\tK: KVNamespace;\n\x7d\n"),
                 ancestors := [] },
               some "interface Env \x7b\n\tK: KVNamespace;\n\x7d\n")
      ∧ generateTypes { kv_namespaces := some [{ binding := "K" }] } CfScriptFormat.modules "B" {}
          = Except.ok
              ({ cwd := some (FileEntry.ok
                    "// Generated by Wrangler on B\ninterface Env \x7b\n\tK: KVNamespace;\n\x7d\n"),
                 ancestors := [] },
               some "interface Env \x7b\n\tK: KVNamespace;\n\x7d\n") := by
  have h := C3_amended_deterministic_body { kv_namespaces := some [{ binding := "K" }] }
    CfScriptFormat.modules "A" "B" {} rfl (by decide)
  refine ⟨rfl, by decide, ?_, ?_⟩
  · rw [h.1]; decide
  · rw [h.2]; decide

/-- C6: with both emitted lists empty and an ownership check that lets the
run proceed, the writer writes nothing: the whole file-system state comes
back unchanged and nothing is logged. -/
theorem C6_empty_skip (fmt : CfScriptFormat) (now : String) (fs : FS)
    (hown : ownershipCheck fs = none) :
    writeDTSFile [] [] fmt now fs = Except.ok (fs, none) := by
  unfold writeDTSFile
  rw [hown]
  rfl

/-- Witness for C6 on the empty file system. -/
theorem C6_witness :
    ownershipCheck {} = none
      ∧ writeDTSFile [] [] CfScriptFormat.modules "now" {} = Except.ok ({}, none) :=
  ⟨rfl, C6_empty_skip CfScriptFormat.modules "now" {} rfl⟩

/-- C8: a file-system error thrown while reading the found file is re-raised
by the writer exactly when its message does not contain "not found"; an
error of the not-found kind is absorbed and generation proceeds to a normal
result. -/
theorem C8_fs_error_propagation (configToDTS : ConfigToDTS) (fmt : CfScriptFormat)
    (now : String) (fs : FS) (msg : String)
    (h : findUpSync fs = some (FileEntry.err msg)) :
    (strIncludes msg "not found" = false →
        generateTypes configToDTS fmt now fs = Except.error msg)
      ∧ (strIncludes msg "not found" = true →
        ∃ r, generateTypes configToDTS fmt now fs = Except.ok r) := by
  constructor
  · intro habs
    have hoc : ownershipCheck fs = some msg := by
      simp [ownershipCheck, h, habs]
    unfold generateTypes writeDTSFile
    rw [hoc]
  · intro habs
    have hoc : ownershipCheck fs = none := by
      simp [ownershipCheck, h, habs]
    by_cases hc : ((envTypeStructure configToDTS).length != 0
        || (modulesTypeStructure configToDTS).length != 0) = true
    · exact ⟨({ fs with cwd := some (FileEntry.ok ("// Generated by Wrangler on " ++ now ++ "\n"
          ++ combinedTypeStrings fmt (envTypeStructure configToDTS) (modulesTypeStructure configToDTS))) },
        some (combinedTypeStrings fmt (envTypeStructure configToDTS) (modulesTypeStructure configToDTS))),
        by unfold generateTypes writeDTSFile; rw [hoc]; simp [hc]⟩
    · exact ⟨(fs, none),
        by unfold generateTypes writeDTSFile; rw [hoc]; simp [hc]⟩

/-- Witness for C8: a permission error is re-raised. -/
theorem C8_witness :
    findUpSync { cwd := some (FileEntry.err "EACCES: permission denied"), ancestors := [] }
        = some (FileEntry.err "EACCES: permission denied")
      ∧ strIncludes "EACCES: permission denied" "not found" = false
      ∧ generateTypes {} CfScriptFormat.modules "now"
          { cwd := some (FileEntry.err "EACCES: permission denied"), ancestors := [] }
          = Except.error "EACCES: permission denied" :=
  ⟨rfl, by decide,
    (C8_fs_error_propagation {} CfScriptFormat.modules "now"
        { cwd := some (FileEntry.err "EACCES: permission denied"), ancestors := [] }
        "EACCES: permission denied" rfl).1 (by decide)⟩

/-- C10: whenever the writer actually writes, the written file is the
candidate of the current working directory: the ancestor entries of the file
system are untouched (an ancestor file found by the upward search is only
read), the current directory's candidate is replaced by the dated header
plus assembled body, and the logged string is that body. -/
theorem C10_write_targets_cwd (env mods : List String) (fmt : CfScriptFormat)
    (now : String) (fs fs2 : FS) (logged : String)
    (h : writeDTSFile env mods fmt now fs = Except.ok (fs2, some logged)) :
    fs2.ancestors = fs.ancestors
      ∧ fs2.cwd = some (FileEntry.ok ("// Generated by Wrangler on " ++ now ++ "\n"
          ++ combinedTypeStrings fmt env mods))
      ∧ logged = combinedTypeStrings fmt env mods := by
  unfold writeDTSFile at h
  cases hoc : ownershipCheck fs with
  | some m => rw [hoc] at h; simp at h
  | none =>
    rw [hoc] at h
    by_cases hc : (env.length != 0 || mods.length != 0) = true
    · rw [if_pos hc] at h
      simp only [Except.ok.injEq, Prod.mk.injEq, Option.some.injEq] at h
      obtain ⟨h1, h2⟩ := h
      subst h1
      subst h2
      exact ⟨rfl, rfl, rfl⟩
    · rw [if_neg hc] at h
      simp at h

/-- Witness for C10: the ownership check finds a generated file one level up,
yet the write creates the file in the current working directory and leaves
the ancestor entry as it was. -/
theorem C10_witness :
    writeDTSFile ["A: KVNamespace;"] [] CfScriptFormat.modules "T"
        { cwd := none, ancestors := [some (FileEntry.ok "// Generated by Wrangler on X")] }
        = Except.ok
            ({ cwd := some (FileEntry.ok
                  "// Generated by Wrangler on T\ninterface Env \x7b\n\tA: KVNamespace;\n\x7d\n"),
               ancestors := [some (FileEntry.ok "// Generated by Wrangler on X")] },
             some "interface Env \x7b\n\tA: KVNamespace;\n\x7d\n")
      ∧ (FS.mk (some (FileEntry.ok
            "// Generated by Wrangler on T\ninterface Env \x7b\n\tA: KVNamespace;\n\x7d\n"))
          [some (FileEntry.ok "// Generated by Wrangler on X")]).ancestors
        = (FS.mk none [some (FileEntry.ok "// Generated by Wrangler on X")]).ancestors := by
  have hw : writeDTSFile ["A: KVNamespace;"] [] CfScriptFormat.modules "T"
      { cwd := none, ancestors := [some (FileEntry.ok "// Generated by Wrangler on X")] }
      = Except.ok
          ({ cwd := some (FileEntry.ok
                "// Generated by Wrangler on T\ninterface Env \x7b\n\tA: KVNamespace;\n\x7d\n"),
             ancestors := [some (FileEntry.ok "// Generated by Wrangler on X")] },
           some "interface Env \x7b\n\tA: KVNamespace;\n\x7d\n") := by decide
  exact ⟨hw,
    (C10_write_targets_cwd ["A: KVNamespace;"] [] CfScriptFormat.modules "T"
      { cwd := none, ancestors := [some (FileEntry.ok "// Generated by Wrangler on X")] }
      { cwd := some (FileEntry.ok
          "// Generated by Wrangler on T\ninterface Env \x7b\n\tA: KVNamespace;\n\x7d\n"),
        ancestors := [some (FileEntry.ok "// Generated by Wrangler on X")] }
      "interface Env \x7b\n\tA: KVNamespace;\n\x7d\n" hw).1⟩
